import Mathlib

/-!
Verification of the DTREX backend trade / commitment-ledger core.

This file shallowly embeds the claims-relevant parts of the Rust backend:

* `src/backend/src/model/trade.rs`        (TradeBmc, ReviewBmc)
* `src/backend/src/model/transaction.rs`  (TransactionBmc)
* `src/backend/src/api/verify.rs`         (verification tick, stale cleanup)
* `src/backend/src/api/rpc.rs`            (rpc_trade_commit)

The SQL tables are embedded as Lean lists inside a `Db` record; each SQL
statement becomes a pure function on `Db`.  `fetch_optional` / `fetch_one`
become `List.find?` (first matching row), a SQL `UPDATE ... WHERE p` becomes
`List.map` of a per-row conditional update together with `List.countP` for
`rows_affected`, and `INSERT ... RETURNING id` appends a row and draws the id
from an explicit sequence counter.  `i64` columns are `Int`, timestamps are
`Nat` (seconds; `NOW()` is passed in as an explicit `now` argument), `f64` /
`NUMERIC` columns are `Rat` (none of the verified claims depend on binary
floating-point rounding), and nullable columns are `Option`.  Status columns
are kept as the literal strings the Rust code stores and compares.  Columns
the embedded operations never read or write (escrow / shipping / completion
markers, `puzzle_hash`, `retry_count`) are omitted from the records.
Storage-level (sqlx) failures are not modelled, except at the single point
where a claim is about them: the reputation update inside `ReviewBmc.create`
takes an explicit success flag, because that statement runs outside any SQL
transaction in the source.
-/

namespace DTREX

/-- Error enum from `src/backend/src/error.rs` (claims-relevant variants).
Quote characters occurring inside the original message strings are elided. -/
inductive Error where
  | LoginFail : Error
  | InternalServer : Error
  | NotFound : Error
  | BadRequest : Error
  | Database : String → Error
  | Auth : String → Error
  | Config : String → Error
  | InvalidState : String → Error
  | NotFoundMsg : String → Error
deriving DecidableEq, Repr

/-- Row of the `trades` table (`Trade` struct in `model/trade.rs`). -/
structure Trade where
  id : Int
  proposer_id : Int
  acceptor_id : Option Int
  status : String
  proposer_item_title : String
  proposer_item_description : String
  proposer_item_condition : Option String
  proposer_item_value_usd : Rat
  proposer_item_category : Option String
  acceptor_item_title : Option String
  acceptor_item_description : Option String
  acceptor_item_condition : Option String
  acceptor_item_value_usd : Option Rat
  acceptor_xch_offer : Option Int
  trade_type : Option String
  updated_at : Nat
deriving DecidableEq, Repr

/-- Row of the `trade_transactions` table (`TradeTransaction` struct in
`model/transaction.rs`). -/
structure TradeTransaction where
  id : Int
  trade_id : Int
  user_id : Int
  tx_type : String
  tx_id : Option String
  coin_id : Option String
  from_address : Option String
  to_address : Option String
  amount_mojos : Int
  status : String
  confirmations : Option Int
  error_message : Option String
  created_at : Nat
  mempool_at : Option Nat
  confirmed_at : Option Nat
deriving DecidableEq, Repr

/-- Row of the `trade_reviews` table (`TradeReview` struct in `model/trade.rs`). -/
structure TradeReview where
  id : Int
  trade_id : Int
  reviewer_id : Int
  reviewee_id : Int
  timeliness_score : Int
  packaging_score : Int
  value_honesty_score : Int
  state_accuracy_score : Int
  overall_score : Rat
  comment : Option String
  created_at : Nat
deriving DecidableEq, Repr

/-- The claims-relevant slice of a `users` table row (reputation columns
written by `ReviewBmc::update_reputation`). -/
structure UserRow where
  id : Int
  reputation_score : Rat
  total_trades : Int
  updated_at : Nat
deriving DecidableEq, Repr

/-- The relational store.  `next_tx_rowid` / `next_review_rowid` model the id
sequences behind `INSERT ... RETURNING id`. -/
structure Db where
  trades : List Trade
  trade_transactions : List TradeTransaction
  trade_reviews : List TradeReview
  users : List UserRow
  next_tx_rowid : Int
  next_review_rowid : Int
deriving DecidableEq, Repr

/-- `TradeTransactionForCreate` DTO from `model/transaction.rs`. -/
structure TradeTransactionForCreate where
  trade_id : Int
  tx_type : String
  tx_id : Option String
  from_address : Option String
  to_address : Option String
  amount_mojos : Int
deriving DecidableEq, Repr

/-- `TradeAcceptParams` DTO from `model/trade.rs`. -/
structure TradeAcceptParams where
  trade_id : Int
  offer_type : String
  item_title : Option String
  item_description : Option String
  item_condition : Option String
  item_value_usd : Option Rat
  xch_amount : Option Int
deriving DecidableEq, Repr

/-- `ReviewForCreate` DTO from `model/trade.rs`. -/
structure ReviewForCreate where
  trade_id : Int
  timeliness : Int
  packaging : Int
  value_honesty : Int
  state_accuracy : Int
  comment : Option String
deriving DecidableEq, Repr

/-- WHERE clause `id = $1 AND (proposer_id = $2 OR acceptor_id = $2)` on `trades`. -/
def participantRow (trade_id user_id : Int) (t : Trade) : Bool :=
  decide (t.id = trade_id ∧ (t.proposer_id = user_id ∨ t.acceptor_id = some user_id))

/-- WHERE clause of the duplicate check in `TransactionBmc::create`:
`trade_id = $1 AND user_id = $2 AND tx_type = $3 AND status NOT IN ('failed', 'refunded')`. -/
def unfinishedRow (trade_id user_id : Int) (ty : String) (r : TradeTransaction) : Bool :=
  decide (r.trade_id = trade_id ∧ r.user_id = user_id ∧ r.tx_type = ty ∧
    r.status ≠ "failed" ∧ r.status ≠ "refunded")

/-- `TransactionBmc::create` (`model/transaction.rs`): participant check, then
duplicate check against every row of the same (trade, user, type) whose status
is outside {failed, refunded}, then insert of a fresh `pending` row. -/
def TransactionBmc.create (user_id : Int) (db : Db) (tx : TradeTransactionForCreate)
    (now : Nat) : Except Error (Int × Db) :=
  match db.trades.find? (participantRow tx.trade_id user_id) with
  | none => .error (.Auth "Not a participant in this trade")
  | some _ =>
    match db.trade_transactions.find? (unfinishedRow tx.trade_id user_id tx.tx_type) with
    | some existing =>
      .error (.InvalidState
        ("A " ++ tx.tx_type ++ " transaction already exists with status " ++ existing.status))
    | none =>
      let row : TradeTransaction :=
        { id := db.next_tx_rowid, trade_id := tx.trade_id, user_id := user_id,
          tx_type := tx.tx_type, tx_id := tx.tx_id, coin_id := none,
          from_address := tx.from_address, to_address := tx.to_address,
          amount_mojos := tx.amount_mojos, status := "pending",
          confirmations := none, error_message := none, created_at := now,
          mempool_at := none, confirmed_at := none }
      .ok (db.next_tx_rowid,
        { db with trade_transactions := db.trade_transactions ++ [row],
                  next_tx_rowid := db.next_tx_rowid + 1 })

/-- WHERE clause of `TransactionBmc::submit_tx_id`:
`id = $2 AND user_id = $3 AND status = 'pending'`. -/
def submitWhere (transaction_id user_id : Int) (r : TradeTransaction) : Bool :=
  decide (r.id = transaction_id ∧ r.user_id = user_id ∧ r.status = "pending")

/-- SET clause of `TransactionBmc::submit_tx_id`, applied per row. -/
def submitRow (transaction_id user_id : Int) (tx_id : String) (now : Nat)
    (r : TradeTransaction) : TradeTransaction :=
  if submitWhere transaction_id user_id r then
    { r with tx_id := some tx_id, status := "mempool", mempool_at := some now }
  else r

/-- `TransactionBmc::submit_tx_id` (`model/transaction.rs`):
conditional UPDATE, then NotFound when `rows_affected == 0`. -/
def TransactionBmc.submit_tx_id (user_id : Int) (db : Db) (transaction_id : Int)
    (tx_id : String) (now : Nat) : Except Error Db :=
  if db.trade_transactions.countP (submitWhere transaction_id user_id) = 0 then
    .error (.NotFoundMsg "Transaction not found or already submitted")
  else
    .ok { db with trade_transactions :=
      db.trade_transactions.map (submitRow transaction_id user_id tx_id now) }

/-- WHERE clause shared by `TransactionBmc::confirm` and `TransactionBmc::fail`:
`tx_id = $n AND status IN ('pending', 'mempool')`. -/
def activeWithTxId (tx_id : String) (r : TradeTransaction) : Bool :=
  decide (r.tx_id = some tx_id ∧ (r.status = "pending" ∨ r.status = "mempool"))

/-- SET clause of `TransactionBmc::confirm`, applied per row. -/
def confirmRow (tx_id coin_id : String) (confirmations : Int) (now : Nat)
    (r : TradeTransaction) : TradeTransaction :=
  if activeWithTxId tx_id r then
    { r with status := "confirmed", coin_id := some coin_id,
             confirmations := some confirmations, confirmed_at := some now }
  else r

/-- `TransactionBmc::confirm` (`model/transaction.rs`):
conditional UPDATE keyed by the external tx id, then NotFound when
`rows_affected == 0`. -/
def TransactionBmc.confirm (db : Db) (tx_id coin_id : String) (confirmations : Int)
    (now : Nat) : Except Error Db :=
  if db.trade_transactions.countP (activeWithTxId tx_id) = 0 then
    .error (.NotFoundMsg "Transaction not found or already confirmed")
  else
    .ok { db with trade_transactions :=
      db.trade_transactions.map (confirmRow tx_id coin_id confirmations now) }

/-- SET clause of `TransactionBmc::fail`, applied per row. -/
def failRow (tx_id error_message : String) (r : TradeTransaction) : TradeTransaction :=
  if activeWithTxId tx_id r then
    { r with status := "failed", error_message := some error_message }
  else r

/-- The pure effect of the UPDATE inside `TransactionBmc::fail`. -/
def failApply (db : Db) (tx_id error_message : String) : Db :=
  { db with trade_transactions := db.trade_transactions.map (failRow tx_id error_message) }

/-- `TransactionBmc::fail` (`model/transaction.rs`): conditional UPDATE keyed by
the external tx id.  Unlike `submit_tx_id` and `confirm`, the source never
inspects `rows_affected` here, so the call returns `Ok(())` even when the
UPDATE matched zero rows. -/
def TransactionBmc.fail (db : Db) (tx_id error_message : String) : Except Error Db :=
  .ok (failApply db tx_id error_message)

/-- WHERE clause of the lookup in `TradeBmc::accept`:
`id = $1 AND status = 'proposal'`. -/
def proposalRow (trade_id : Int) (t : Trade) : Bool :=
  decide (t.id = trade_id ∧ t.status = "proposal")

/-- SET clause of the UPDATE in `TradeBmc::accept` (its WHERE clause is
`id = $1` only), applied per row. -/
def acceptRow (user_id : Int) (params : TradeAcceptParams) (trade_type : String)
    (now : Nat) (t : Trade) : Trade :=
  if t.id = params.trade_id then
    { t with acceptor_id := some user_id, status := "matched",
             acceptor_item_title := params.item_title,
             acceptor_item_description := params.item_description,
             acceptor_item_condition := params.item_condition,
             acceptor_item_value_usd := params.item_value_usd,
             acceptor_xch_offer := params.xch_amount,
             trade_type := some trade_type, updated_at := now }
  else t

/-- `TradeBmc::accept` (`model/trade.rs`): fetch the proposal (NotFound when
absent or not in `proposal` status), reject the proposer (BadRequest), derive
`trade_type` from the offer type, then UPDATE the row by id. -/
def TradeBmc.accept (user_id : Int) (db : Db) (params : TradeAcceptParams)
    (now : Nat) : Except Error Db :=
  match db.trades.find? (proposalRow params.trade_id) with
  | none => .error .NotFound
  | some trade =>
    if trade.proposer_id = user_id then
      .error .BadRequest
    else
      let trade_type :=
        if params.offer_type = "xch" then "item_for_xch"
        else if params.offer_type = "mixed" then "mixed"
        else "item_for_item"
      .ok { db with trades := db.trades.map (acceptRow user_id params trade_type now) }

/-- WHERE clause of `TradeBmc::update_status`:
`id = $1 AND (proposer_id = $2 OR acceptor_id = $2)` — note: no status guard. -/
def updateStatusWhere (id user_id : Int) (t : Trade) : Bool :=
  decide (t.id = id ∧ (t.proposer_id = user_id ∨ t.acceptor_id = some user_id))

/-- SET clause of `TradeBmc::update_status`, applied per row. -/
def updateStatusRow (id user_id : Int) (status : String) (now : Nat) (t : Trade) : Trade :=
  if updateStatusWhere id user_id t then { t with status := status, updated_at := now }
  else t

/-- `TradeBmc::update_status` (`model/trade.rs`): ownership-scoped conditional
UPDATE, then NotFound when `rows_affected == 0`.  The predicate checks the id
and participation only; it does not constrain the current status. -/
def TradeBmc.update_status (user_id : Int) (db : Db) (id : Int) (status : String)
    (now : Nat) : Except Error Db :=
  if db.trades.countP (updateStatusWhere id user_id) = 0 then
    .error .NotFound
  else
    .ok { db with trades := db.trades.map (updateStatusRow id user_id status now) }

/-- `TradeBmc::get_public` (`model/trade.rs`):
`SELECT * FROM trades WHERE id = $1` — the query has no status filter. -/
def TradeBmc.get_public (db : Db) (id : Int) : Except Error Trade :=
  match db.trades.find? (fun t => decide (t.id = id)) with
  | some t => .ok t
  | none => .error .NotFound

/-- Typed RPC error from `api/rpc.rs`. -/
structure RpcError where
  code : Int
  message : String
deriving DecidableEq, Repr

/-- `rpc_trade_commit` (`api/rpc.rs`): delegates to
`TradeBmc::update_status(.., "committed")`; maps model errors to code 5000.
The source carries a `TODO: Implement actual commitment transaction creation
-- For now, just update status` comment at this call site.  The Display text
of the wrapped model error is elided. -/
def rpc_trade_commit (user_id : Int) (db : Db) (trade_id : Int) (now : Nat) :
    Except RpcError Db :=
  match TradeBmc.update_status user_id db trade_id "committed" now with
  | .ok db2 => .ok db2
  | .error _ => .error { code := 5000, message := "Commit failed" }

/-- Result of the chain observer's `get_transaction` call
(the fields `verify_single_transaction` reads). -/
structure TransactionRecord where
  confirmed : Bool
  confirmed_at_height : Option Nat
deriving DecidableEq, Repr

/-- The chain observer interface consumed by the verification loop
(`is_tx_in_mempool`, `get_transaction`); a failed `get_transaction` lookup is
`none`. -/
structure ChainObserver where
  is_tx_in_mempool : String → Bool
  get_transaction : String → Option TransactionRecord

/-- `MIN_CONFIRMATIONS` constant from `api/verify.rs`. -/
def MIN_CONFIRMATIONS : Nat := 6

/-- `verify_single_transaction` (`api/verify.rs`): if the tx is still in the
mempool, no change; otherwise look it up — when confirmed, compute
`current_height.saturating_sub(confirmed_at_height)` (`Nat` subtraction is
saturating) and call `TransactionBmc::confirm` once the threshold is met; a
failed lookup or a below-threshold confirmation leaves the store unchanged. -/
def verify_single_transaction (chain : ChainObserver) (db : Db) (tx_id : String)
    (current_height : Nat) (now : Nat) : Except Error (Bool × Db) :=
  if chain.is_tx_in_mempool tx_id then
    .ok (false, db)
  else
    match chain.get_transaction tx_id with
    | some tx_record =>
      if tx_record.confirmed then
        let confirmations : Nat :=
          match tx_record.confirmed_at_height with
          | some h => current_height - h
          | none => 0
        if MIN_CONFIRMATIONS ≤ confirmations then
          match TransactionBmc.confirm db tx_id "" (Int.ofNat confirmations) now with
          | .ok db2 => .ok (true, db2)
          | .error e => .error e
        else
          .ok (false, db)
      else
        .ok (false, db)
    | none => .ok (false, db)

/-- The fixed message `cleanup_stale_transactions` stores. -/
def staleMessage : String := "Transaction did not appear in mempool within 24 hours"

/-- WHERE clause of the stale SELECT in `cleanup_stale_transactions`:
`status = 'pending' AND tx_id IS NOT NULL AND created_at < NOW() - INTERVAL '24 hours'`. -/
def isStalePending (now : Nat) (r : TradeTransaction) : Bool :=
  decide (r.status = "pending" ∧ r.tx_id.isSome ∧ r.created_at + 86400 < now)

/-- `cleanup_stale_transactions` (`api/verify.rs`): select the stale pending
external ids once, then call `TransactionBmc::fail` for each, propagating
errors (`?`). -/
def cleanup_stale_transactions (db : Db) (now : Nat) : Except Error Db :=
  let stale := (db.trade_transactions.filter (isStalePending now)).filterMap
    (fun r => r.tx_id)
  stale.foldlM (fun d s => TransactionBmc.fail d s staleMessage) db

/-- WHERE clause of the trade lookup in `ReviewBmc::create`:
`id = $1 AND (proposer_id = $2 OR acceptor_id = $2) AND status = 'completed'`. -/
def reviewTradeWhere (trade_id user_id : Int) (t : Trade) : Bool :=
  decide (t.id = trade_id ∧ (t.proposer_id = user_id ∨ t.acceptor_id = some user_id) ∧
    t.status = "completed")

/-- `ReviewBmc::update_reputation` (`model/trade.rs`): recompute the reviewee's
average `overall_score` (`COALESCE(AVG(..), 0)`) and `COUNT(DISTINCT trade_id)`
over all reviews naming them as reviewee, and write both onto the user row. -/
def ReviewBmc.update_reputation (db : Db) (user_id : Int) (now : Nat) : Db :=
  let rs := db.trade_reviews.filter (fun rv => decide (rv.reviewee_id = user_id))
  let score : Rat :=
    if rs.length = 0 then 0 else (rs.map (fun rv => rv.overall_score)).sum / rs.length
  let total : Int := ((rs.map (fun rv => rv.trade_id)).dedup).length
  { db with users := db.users.map (fun u =>
      if u.id = user_id then
        { u with reputation_score := score, total_trades := total, updated_at := now }
      else u) }

/-- `ReviewBmc::create` (`model/trade.rs`).  The source runs two autocommit
statements on the shared pool — the review INSERT, then the reputation UPDATE —
with no enclosing SQL transaction, so the INSERT is durable before the UPDATE
runs.  `reputation_update_ok` injects the storage outcome of that second
statement; when it is `false` the function returns `Err(InternalServer)` (via
`map_err`) while the inserted review row remains in the store.  The returned
pair carries the post-call store in both the success and the error case. -/
def ReviewBmc.create (user_id : Int) (db : Db) (review : ReviewForCreate) (now : Nat)
    (reputation_update_ok : Bool) : Except Error Int × Db :=
  match db.trades.find? (reviewTradeWhere review.trade_id user_id) with
  | none => (.error .NotFound, db)
  | some trade =>
    let reviewee : Except Error Int :=
      if trade.proposer_id = user_id then
        match trade.acceptor_id with
        | some a => .ok a
        | none => .error .BadRequest
      else .ok trade.proposer_id
    match reviewee with
    | .error e => (.error e, db)
    | .ok reviewee_id =>
      let overall : Rat :=
        (review.timeliness : Rat) * (20 / 100) + (review.packaging : Rat) * (25 / 100) +
        (review.value_honesty : Rat) * (30 / 100) + (review.state_accuracy : Rat) * (25 / 100)
      let row : TradeReview :=
        { id := db.next_review_rowid, trade_id := review.trade_id,
          reviewer_id := user_id, reviewee_id := reviewee_id,
          timeliness_score := review.timeliness, packaging_score := review.packaging,
          value_honesty_score := review.value_honesty,
          state_accuracy_score := review.state_accuracy, overall_score := overall,
          comment := review.comment, created_at := now }
      let db1 : Db :=
        { db with trade_reviews := db.trade_reviews ++ [row],
                  next_review_rowid := db.next_review_rowid + 1 }
      if reputation_update_ok then
        (.ok db.next_review_rowid, ReviewBmc.update_reputation db1 reviewee_id now)
      else
        (.error .InternalServer, db1)

/-- The ledger invariant of claim C1: any two rows for the same
(trade, user, tx_type) that are both in a non-terminal status (`pending` or
`mempool`) are the same row. -/
@[reducible] def atMostOneActive (db : Db) : Prop :=
  ∀ r1 ∈ db.trade_transactions, ∀ r2 ∈ db.trade_transactions,
    r1.trade_id = r2.trade_id → r1.user_id = r2.user_id → r1.tx_type = r2.tx_type →
    (r1.status = "pending" ∨ r1.status = "mempool") →
    (r2.status = "pending" ∨ r2.status = "mempool") → r1 = r2

/-- `trades.id` is the primary key: two rows with the same id coincide. -/
@[reducible] def uniqueTradeIds (db : Db) : Prop :=
  ∀ t1 ∈ db.trades, ∀ t2 ∈ db.trades, t1.id = t2.id → t1 = t2

/-- External transaction ids identify at most one ledger row. -/
@[reducible] def uniqueTxIds (db : Db) : Prop :=
  ∀ r1 ∈ db.trade_transactions, ∀ r2 ∈ db.trade_transactions,
    r1.tx_id.isSome = true → r1.tx_id = r2.tx_id → r1 = r2

/-- Structural decidable equality for `Except`, used to evaluate concrete
runs of the embedded operations. -/
instance exceptDecEq {ε α : Type} [DecidableEq ε] [DecidableEq α] :
    DecidableEq (Except ε α)
  | .error e, .error f =>
    if h : e = f then .isTrue (by rw [h])
    else .isFalse (fun hc => h (Except.error.inj hc))
  | .error _, .ok _ => .isFalse (fun hc => Except.noConfusion hc)
  | .ok _, .error _ => .isFalse (fun hc => Except.noConfusion hc)
  | .ok a, .ok b =>
    if h : a = b then .isTrue (by rw [h])
    else .isFalse (fun hc => h (Except.ok.inj hc))

/-! ### Basic lemmas about the row predicates and row updates -/

theorem activeWithTxId_iff (tx_id : String) (r : TradeTransaction) :
    activeWithTxId tx_id r = true ↔
      r.tx_id = some tx_id ∧ (r.status = "pending" ∨ r.status = "mempool") := by
  simp [activeWithTxId]

theorem confirmRow_not_active (tx_id coin_id : String) (confs : Int) (now : Nat)
    (r : TradeTransaction)
    (h : ¬(r.tx_id = some tx_id ∧ (r.status = "pending" ∨ r.status = "mempool"))) :
    confirmRow tx_id coin_id confs now r = r := by
  unfold confirmRow
  rw [if_neg]
  simpa [activeWithTxId_iff] using h

theorem confirmRow_active (tx_id coin_id : String) (confs : Int) (now : Nat)
    (r : TradeTransaction)
    (h : r.tx_id = some tx_id ∧ (r.status = "pending" ∨ r.status = "mempool")) :
    confirmRow tx_id coin_id confs now r =
      { r with status := "confirmed", coin_id := some coin_id,
               confirmations := some confs, confirmed_at := some now } := by
  unfold confirmRow
  rw [if_pos]
  exact (activeWithTxId_iff tx_id r).mpr h

theorem failRow_not_active (tx_id msg : String) (r : TradeTransaction)
    (h : ¬(r.tx_id = some tx_id ∧ (r.status = "pending" ∨ r.status = "mempool"))) :
    failRow tx_id msg r = r := by
  unfold failRow
  rw [if_neg]
  simpa [activeWithTxId_iff] using h

theorem failRow_active (tx_id msg : String) (r : TradeTransaction)
    (h : r.tx_id = some tx_id ∧ (r.status = "pending" ∨ r.status = "mempool")) :
    failRow tx_id msg r = { r with status := "failed", error_message := some msg } := by
  unfold failRow
  rw [if_pos]
  exact (activeWithTxId_iff tx_id r).mpr h

/-! ### Lemmas about `TransactionBmc.confirm` -/

theorem confirm_eq_ok (db : Db) (tx_id coin_id : String) (confs : Int) (now : Nat)
    (h : ∃ r ∈ db.trade_transactions,
      r.tx_id = some tx_id ∧ (r.status = "pending" ∨ r.status = "mempool")) :
    TransactionBmc.confirm db tx_id coin_id confs now =
      .ok { db with trade_transactions :=
        db.trade_transactions.map (confirmRow tx_id coin_id confs now) } := by
  have hpos : 0 < db.trade_transactions.countP (activeWithTxId tx_id) := by
    refine List.countP_pos_iff.mpr ?_
    obtain ⟨r, hr, h1, h2⟩ := h
    exact ⟨r, hr, (activeWithTxId_iff tx_id r).mpr ⟨h1, h2⟩⟩
  unfold TransactionBmc.confirm
  rw [if_neg (Nat.pos_iff_ne_zero.mp hpos)]

theorem confirm_eq_error (db : Db) (tx_id coin_id : String) (confs : Int) (now : Nat)
    (h : ∀ r ∈ db.trade_transactions,
      ¬(r.tx_id = some tx_id ∧ (r.status = "pending" ∨ r.status = "mempool"))) :
    TransactionBmc.confirm db tx_id coin_id confs now =
      .error (.NotFoundMsg "Transaction not found or already confirmed") := by
  have hz : db.trade_transactions.countP (activeWithTxId tx_id) = 0 := by
    refine List.countP_eq_zero.mpr (fun r hr => ?_)
    simpa [activeWithTxId_iff] using h r hr
  unfold TransactionBmc.confirm
  rw [if_pos hz]

theorem confirm_ok_shape (db : Db) (tx_id coin_id : String) (confs : Int) (now : Nat)
    (db2 : Db) (h : TransactionBmc.confirm db tx_id coin_id confs now = .ok db2) :
    db2 = { db with trade_transactions :=
      db.trade_transactions.map (confirmRow tx_id coin_id confs now) } := by
  unfold TransactionBmc.confirm at h
  by_cases hz : db.trade_transactions.countP (activeWithTxId tx_id) = 0
  · rw [if_pos hz] at h
    exact absurd h (by simp)
  · rw [if_neg hz] at h
    exact (Except.ok.injEq _ _).mp h |>.symm

theorem confirm_no_active_after (db : Db) (tx_id coin_id : String) (confs : Int)
    (now : Nat) (db2 : Db)
    (h : TransactionBmc.confirm db tx_id coin_id confs now = .ok db2) :
    ∀ r2 ∈ db2.trade_transactions,
      ¬(r2.tx_id = some tx_id ∧ (r2.status = "pending" ∨ r2.status = "mempool")) := by
  intro r2 hr2 hbad
  rw [confirm_ok_shape db tx_id coin_id confs now db2 h] at hr2
  obtain ⟨r, hr, hmap⟩ := List.mem_map.mp hr2
  by_cases hact : r.tx_id = some tx_id ∧ (r.status = "pending" ∨ r.status = "mempool")
  · rw [confirmRow_active tx_id coin_id confs now r hact] at hmap
    subst hmap
    rcases hbad.2 with h2 | h2 <;> simp at h2
  · rw [confirmRow_not_active tx_id coin_id confs now r hact] at hmap
    subst hmap
    exact hact hbad

/-! ### Lemmas about `TransactionBmc.fail` and the stale-cleanup fold -/

theorem foldlM_fail_eq_ok (S : List String) (db : Db) :
    (S.foldlM (fun d s => TransactionBmc.fail d s staleMessage) db) =
      .ok (S.foldl (fun d s => failApply d s staleMessage) db) := by
  induction S generalizing db with
  | nil => rfl
  | cons s S ih =>
    rw [List.foldlM_cons, List.foldl_cons]
    show (TransactionBmc.fail db s staleMessage) >>= _ = _
    rw [TransactionBmc.fail]
    show (S.foldlM (fun d s => TransactionBmc.fail d s staleMessage)
      (failApply db s staleMessage)) = _
    exact ih (failApply db s staleMessage)

theorem foldl_failApply_eq_map (S : List String) (db : Db) :
    S.foldl (fun d s => failApply d s staleMessage) db =
      { db with trade_transactions := db.trade_transactions.map (fun r =>
          S.foldl (fun r s => failRow s staleMessage r) r) } := by
  induction S generalizing db with
  | nil => simp
  | cons s S ih =>
    rw [List.foldl_cons, ih]
    simp only [failApply, List.map_map, List.foldl_cons]
    rfl

theorem foldl_failRow_fixed (S : List String) (r : TradeTransaction)
    (h : ¬(r.status = "pending" ∨ r.status = "mempool")) :
    S.foldl (fun r s => failRow s staleMessage r) r = r := by
  induction S with
  | nil => rfl
  | cons s S ih =>
    rw [List.foldl_cons, failRow_not_active s staleMessage r (fun hc => h hc.2)]
    exact ih

theorem foldl_failRow_char (S : List String) (r : TradeTransaction) :
    S.foldl (fun r s => failRow s staleMessage r) r =
      if (∃ s ∈ S, r.tx_id = some s) ∧ (r.status = "pending" ∨ r.status = "mempool") then
        { r with status := "failed", error_message := some staleMessage }
      else r := by
  induction S generalizing r with
  | nil => simp
  | cons s S ih =>
    rw [List.foldl_cons]
    by_cases hpm : r.status = "pending" ∨ r.status = "mempool"
    · by_cases hid : r.tx_id = some s
      · rw [failRow_active s staleMessage r ⟨hid, hpm⟩]
        rw [foldl_failRow_fixed S _ (by simp)]
        rw [if_pos ⟨⟨s, by simp, hid⟩, hpm⟩]
      · rw [failRow_not_active s staleMessage r (fun hc => hid hc.1), ih r]
        have hiff :
            ((∃ t ∈ S, r.tx_id = some t) ∧
              (r.status = "pending" ∨ r.status = "mempool")) ↔
            ((∃ t ∈ s :: S, r.tx_id = some t) ∧
              (r.status = "pending" ∨ r.status = "mempool")) := by
          constructor
          · rintro ⟨⟨t, ht, hrt⟩, hp⟩
            exact ⟨⟨t, List.mem_cons_of_mem s ht, hrt⟩, hp⟩
          · rintro ⟨⟨t, ht, hrt⟩, hp⟩
            rcases List.mem_cons.mp ht with rfl | ht
            · exact absurd hrt hid
            · exact ⟨⟨t, ht, hrt⟩, hp⟩
        rw [if_congr hiff rfl rfl]
    · rw [failRow_not_active s staleMessage r (fun hc => hpm hc.2)]
      rw [ih r, if_neg (fun hc => hpm hc.2), if_neg (fun hc => hpm hc.2)]

theorem isStalePending_iff (now : Nat) (r : TradeTransaction) :
    isStalePending now r = true ↔
      r.status = "pending" ∧ r.tx_id.isSome = true ∧ r.created_at + 86400 < now := by
  simp [isStalePending]

/-! ### Claim C6 -/

/-- Claim C6: the stale-cleanup procedure marks as Failed, with the fixed
message, exactly those transactions that are in Pending status with a non-null
external tx id and a creation time more than 24 hours in the past; every other
row — in particular a Pending row whose external id is null — is left
untouched.  Stated under the key assumption `uniqueTxIds` (an external id
names at most one ledger row). -/
theorem cleanup_stale_marks_exactly_stale (db : Db) (now : Nat) (h : uniqueTxIds db) :
    cleanup_stale_transactions db now =
      .ok { db with trade_transactions := db.trade_transactions.map (fun r =>
        if isStalePending now r then
          { r with status := "failed", error_message := some staleMessage }
        else r) } := by
  unfold cleanup_stale_transactions
  rw [foldlM_fail_eq_ok, foldl_failApply_eq_map]
  have hmap : db.trade_transactions.map (fun r =>
      ((db.trade_transactions.filter (isStalePending now)).filterMap
        (fun r => r.tx_id)).foldl (fun r s => failRow s staleMessage r) r) =
      db.trade_transactions.map (fun r =>
        if isStalePending now r then
          { r with status := "failed", error_message := some staleMessage }
        else r) := by
    refine List.map_congr_left (fun r hr => ?_)
    rw [foldl_failRow_char]
    by_cases hst : isStalePending now r = true
    · obtain ⟨h1, h2, h3⟩ := (isStalePending_iff now r).mp hst
      obtain ⟨s, hs⟩ := Option.isSome_iff_exists.mp h2
      rw [if_pos, if_pos hst]
      refine ⟨⟨s, ?_, hs⟩, Or.inl h1⟩
      exact List.mem_filterMap.mpr ⟨r, List.mem_filter.mpr ⟨hr, hst⟩, hs⟩
    · rw [if_neg, if_neg hst]
      rintro ⟨⟨s, hsS, hrs⟩, hpm⟩
      obtain ⟨q, hq, hqs⟩ := List.mem_filterMap.mp hsS
      obtain ⟨hqmem, hqstale⟩ := List.mem_filter.mp hq
      have : r = q := h r hr q hqmem (by simp [hrs]) (by rw [hrs, hqs])
      exact hst (this ▸ hqstale)
  rw [hmap]

/-- Scenario D transaction: Pending, external id present, created 25 hours
before the cleanup instant (now = 90000 s, created_at = 0). -/
def txScenD : TradeTransaction :=
  { id := 1, trade_id := 1, user_id := 10, tx_type := "commitment_fee",
    tx_id := some "abc", coin_id := none, from_address := none,
    to_address := some "xch1dest", amount_mojos := 2000, status := "pending",
    confirmations := none, error_message := none, created_at := 0,
    mempool_at := none, confirmed_at := none }

/-- A Pending transaction without an external id, equally old: cleanup must
not touch it. -/
def txScenDnoId : TradeTransaction :=
  { txScenD with id := 2, tx_id := none }

/-- Store for the C6 witness. -/
def dbScenD : Db :=
  { trades := [], trade_transactions := [txScenD, txScenDnoId], trade_reviews := [],
    users := [], next_tx_rowid := 3, next_review_rowid := 1 }

/-- Witness for C6 (Scenario D): the stale Pending entry with external id is
marked Failed with the fixed message, and the Pending entry without an
external id is untouched. -/
theorem cleanup_stale_witness :
    cleanup_stale_transactions dbScenD 90000 =
      .ok { dbScenD with trade_transactions :=
        [{ txScenD with status := "failed", error_message := some staleMessage },
         txScenDnoId] } :=
  (cleanup_stale_marks_exactly_stale dbScenD 90000 (by decide)).trans
    (congrArg Except.ok (by decide))

/-! ### Claim C3 -/

/-- Claim C3: `TransactionBmc::confirm` succeeds exactly when some transaction
with the given external tx id is in Pending or Mempool status (the UPDATE then
marks it confirmed), fails NotFound when the transaction is absent or already
out of those statuses, and hence a second `confirm` of the same external id
fails NotFound and applies no further update. -/
theorem confirm_success_criteria_and_no_double_count :
    (∀ db tx_id coin_id confs now,
      (∃ r ∈ db.trade_transactions,
        r.tx_id = some tx_id ∧ (r.status = "pending" ∨ r.status = "mempool")) →
      TransactionBmc.confirm db tx_id coin_id confs now =
        .ok { db with trade_transactions :=
          db.trade_transactions.map (confirmRow tx_id coin_id confs now) }) ∧
    (∀ db tx_id coin_id confs now,
      (∀ r ∈ db.trade_transactions,
        ¬(r.tx_id = some tx_id ∧ (r.status = "pending" ∨ r.status = "mempool"))) →
      TransactionBmc.confirm db tx_id coin_id confs now =
        .error (.NotFoundMsg "Transaction not found or already confirmed")) ∧
    (∀ db tx_id coin_id confs now db2 coin2 confs2 now2,
      TransactionBmc.confirm db tx_id coin_id confs now = .ok db2 →
      TransactionBmc.confirm db2 tx_id coin2 confs2 now2 =
        .error (.NotFoundMsg "Transaction not found or already confirmed")) := by
  refine ⟨confirm_eq_ok, confirm_eq_error, ?_⟩
  intro db tx_id coin_id confs now db2 coin2 confs2 now2 hok
  exact confirm_eq_error db2 tx_id coin2 confs2 now2
    (confirm_no_active_after db tx_id coin_id confs now db2 hok)

/-- Mempool transaction used by the C3 witness. -/
def txC3 : TradeTransaction :=
  { id := 1, trade_id := 1, user_id := 10, tx_type := "commitment_fee",
    tx_id := some "abc", coin_id := none, from_address := none,
    to_address := some "xch1dest", amount_mojos := 2000, status := "mempool",
    confirmations := none, error_message := none, created_at := 0,
    mempool_at := some 10, confirmed_at := none }

/-- Store for the C3 witness. -/
def dbC3 : Db :=
  { trades := [], trade_transactions := [txC3], trade_reviews := [], users := [],
    next_tx_rowid := 2, next_review_rowid := 1 }

/-- The C3 witness transaction after the first confirm. -/
def txC3after : TradeTransaction :=
  { txC3 with
    status := "confirmed", coin_id := some "", confirmations := some 6,
    confirmed_at := some 50 }

/-- Store after the first confirm of the C3 witness. -/
def dbC3after : Db :=
  { dbC3 with trade_transactions := [txC3after] }

/-- Witness for C3: a concrete first `confirm` succeeds from Mempool, and the
second `confirm` of the same external id fails NotFound. -/
theorem confirm_twice_witness :
    TransactionBmc.confirm dbC3 "abc" "" 6 50 = .ok dbC3after ∧
    TransactionBmc.confirm dbC3after "abc" "" 7 60 =
      .error (.NotFoundMsg "Transaction not found or already confirmed") := by
  have h1 : TransactionBmc.confirm dbC3 "abc" "" 6 50 = .ok dbC3after :=
    (confirm_success_criteria_and_no_double_count.1 dbC3 "abc" "" 6 50
      (by decide)).trans (congrArg Except.ok (by decide))
  exact ⟨h1, confirm_success_criteria_and_no_double_count.2.2
    dbC3 "abc" "" 6 50 dbC3after "" 7 60 h1⟩

/-! ### Claim C8 -/

/-- A store whose only ledger row is already Confirmed, for the C8
counterexample. -/
def dbC8 : Db :=
  { trades := [],
    trade_transactions :=
      [{ id := 1, trade_id := 1, user_id := 10, tx_type := "commitment_fee",
         tx_id := some "abc", coin_id := some "coin0", from_address := none,
         to_address := some "xch1dest", amount_mojos := 2000, status := "confirmed",
         confirmations := some 6, error_message := none, created_at := 0,
         mempool_at := some 10, confirmed_at := some 50 }],
    trade_reviews := [], users := [], next_tx_rowid := 2, next_review_rowid := 1 }

/-- Counterexample to C8 as stated: applied to an external id whose only
transaction is in the terminal Confirmed status, `TransactionBmc::fail` still
reports success (`Ok`), returning the store unchanged — the source never
checks `rows_affected` in `fail`. -/
theorem fail_on_confirmed_reports_success :
    TransactionBmc.fail dbC8 "abc" "boom" = .ok dbC8 := by rfl

/-- Claim C8 (amended): `TransactionBmc::fail` updates exactly the
transactions carrying the given external tx id in Pending or Mempool status
(marking them failed with the message); when no such transaction exists —
absent id or only terminal statuses — it changes nothing, but it still reports
success, because the source does not inspect the affected-row count. -/
theorem fail_updates_active_and_always_reports_success (db : Db) (tx_id msg : String) :
    TransactionBmc.fail db tx_id msg = .ok (failApply db tx_id msg) ∧
    (∀ r ∈ db.trade_transactions,
      r.tx_id = some tx_id → (r.status = "pending" ∨ r.status = "mempool") →
      { r with status := "failed", error_message := some msg } ∈
        (failApply db tx_id msg).trade_transactions) ∧
    ((∀ r ∈ db.trade_transactions,
        ¬(r.tx_id = some tx_id ∧ (r.status = "pending" ∨ r.status = "mempool"))) →
      failApply db tx_id msg = db) := by
  refine ⟨rfl, ?_, ?_⟩
  · intro r hr h1 h2
    have : failRow tx_id msg r =
        { r with status := "failed", error_message := some msg } :=
      failRow_active tx_id msg r ⟨h1, h2⟩
    exact this ▸ List.mem_map_of_mem (failRow tx_id msg) hr
  · intro hnone
    show { db with trade_transactions :=
      db.trade_transactions.map (failRow tx_id msg) } = db
    have : db.trade_transactions.map (failRow tx_id msg) = db.trade_transactions := by
      have := List.map_congr_left (fun r hr =>
        failRow_not_active tx_id msg r (hnone r hr))
      simpa using this
    rw [this]

/-- Witness for the amended C8: on the all-terminal store `dbC8`, `fail`
reports success and leaves the store unchanged. -/
theorem fail_updates_witness :
    TransactionBmc.fail dbC8 "abc" "boom" = .ok (failApply dbC8 "abc" "boom") ∧
    failApply dbC8 "abc" "boom" = dbC8 :=
  ⟨(fail_updates_active_and_always_reports_success dbC8 "abc" "boom").1,
   (fail_updates_active_and_always_reports_success dbC8 "abc" "boom").2.2 (by decide)⟩

/-! ### Lemmas about `TransactionBmc.create` -/

theorem create_invalid_state (user_id : Int) (db : Db) (tx : TradeTransactionForCreate)
    (now : Nat)
    (hpart : ∃ t ∈ db.trades, t.id = tx.trade_id ∧
      (t.proposer_id = user_id ∨ t.acceptor_id = some user_id))
    (r : TradeTransaction) (hr : r ∈ db.trade_transactions)
    (h1 : r.trade_id = tx.trade_id) (h2 : r.user_id = user_id)
    (h3 : r.tx_type = tx.tx_type)
    (h4 : r.status ≠ "failed") (h5 : r.status ≠ "refunded") :
    ∃ msg, TransactionBmc.create user_id db tx now = .error (.InvalidState msg) := by
  unfold TransactionBmc.create
  have hp : (db.trades.find? (participantRow tx.trade_id user_id)).isSome := by
    rw [List.find?_isSome]
    obtain ⟨t, ht, hid, hrole⟩ := hpart
    exact ⟨t, ht, by simp [participantRow, hid, hrole]⟩
  obtain ⟨t0, ht0⟩ := Option.isSome_iff_exists.mp hp
  rw [ht0]
  have hf : (db.trade_transactions.find?
      (unfinishedRow tx.trade_id user_id tx.tx_type)).isSome := by
    rw [List.find?_isSome]
    exact ⟨r, hr, by simp [unfinishedRow, h1, h2, h3, h4, h5]⟩
  obtain ⟨r0, hr0⟩ := Option.isSome_iff_exists.mp hf
  rw [hr0]
  exact ⟨_, rfl⟩

theorem create_ok_inv (user_id : Int) (db : Db) (tx : TradeTransactionForCreate)
    (now : Nat) (id : Int) (db2 : Db)
    (h : TransactionBmc.create user_id db tx now = .ok (id, db2)) :
    (∀ r ∈ db.trade_transactions, ¬(r.trade_id = tx.trade_id ∧ r.user_id = user_id ∧
      r.tx_type = tx.tx_type ∧ r.status ≠ "failed" ∧ r.status ≠ "refunded")) ∧
    db2.trade_transactions = db.trade_transactions ++
      [{ id := db.next_tx_rowid, trade_id := tx.trade_id, user_id := user_id,
         tx_type := tx.tx_type, tx_id := tx.tx_id, coin_id := none,
         from_address := tx.from_address, to_address := tx.to_address,
         amount_mojos := tx.amount_mojos, status := "pending",
         confirmations := none, error_message := none, created_at := now,
         mempool_at := none, confirmed_at := none }] := by
  unfold TransactionBmc.create at h
  cases hp : db.trades.find? (participantRow tx.trade_id user_id) with
  | none => rw [hp] at h; exact absurd h (by simp)
  | some t =>
    rw [hp] at h
    cases hf : db.trade_transactions.find? (unfinishedRow tx.trade_id user_id tx.tx_type) with
    | some r0 => rw [hf] at h; exact absurd h (by simp)
    | none =>
      rw [hf] at h
      have hdb2 := (Prod.mk.injEq _ _ _ _).mp (Except.ok.inj h)
      refine ⟨?_, ?_⟩
      · intro r hr hbad
        have hnr := List.find?_eq_none.mp hf r hr
        simp only [unfinishedRow, decide_eq_true_eq] at hnr
        exact hnr hbad
      · rw [← hdb2.2]

/-! ### Claim C1 -/

/-- Claim C1: for every (trade, user, tx_type) the ledger holds at most one
transaction in a non-terminal status (Pending or Mempool):
`TransactionBmc::create` fails InvalidState whenever a non-terminal
transaction of the same type already exists for that trade and participant,
and a successful create (which inserts a fresh Pending row) preserves the
at-most-one-non-terminal bound. -/
theorem create_single_active_guarantee :
    (∀ user_id db tx now r,
      (∃ t ∈ db.trades, t.id = tx.trade_id ∧
        (t.proposer_id = user_id ∨ t.acceptor_id = some user_id)) →
      r ∈ db.trade_transactions → r.trade_id = tx.trade_id → r.user_id = user_id →
      r.tx_type = tx.tx_type → (r.status = "pending" ∨ r.status = "mempool") →
      ∃ msg, TransactionBmc.create user_id db tx now = .error (.InvalidState msg)) ∧
    (∀ user_id db tx now id db2, atMostOneActive db →
      TransactionBmc.create user_id db tx now = .ok (id, db2) →
      atMostOneActive db2) := by
  constructor
  · intro user_id db tx now r hpart hr h1 h2 h3 h4
    refine create_invalid_state user_id db tx now hpart r hr h1 h2 h3 ?_ ?_ <;>
      rcases h4 with h | h <;> simp [h]
  · intro user_id db tx now id db2 hinv hok
    obtain ⟨hnone, htxs⟩ := create_ok_inv user_id db tx now id db2 hok
    intro r1 hr1 r2 hr2 e1 e2 e3 p1 p2
    rw [htxs] at hr1 hr2
    rcases List.mem_append.mp hr1 with hr1 | hr1 <;>
      rcases List.mem_append.mp hr2 with hr2 | hr2
    · exact hinv r1 hr1 r2 hr2 e1 e2 e3 p1 p2
    · exfalso
      have hr2new := List.mem_singleton.mp hr2
      refine hnone r1 hr1 ⟨?_, ?_, ?_, ?_, ?_⟩
      · rw [e1, hr2new]
      · rw [e2, hr2new]
      · rw [e3, hr2new]
      · rcases p1 with h | h <;> simp [h]
      · rcases p1 with h | h <;> simp [h]
    · exfalso
      have hr1new := List.mem_singleton.mp hr1
      refine hnone r2 hr2 ⟨?_, ?_, ?_, ?_, ?_⟩
      · rw [← e1, hr1new]
      · rw [← e2, hr1new]
      · rw [← e3, hr1new]
      · rcases p2 with h | h <;> simp [h]
      · rcases p2 with h | h <;> simp [h]
    · rw [List.mem_singleton.mp hr1, List.mem_singleton.mp hr2]

/-- Matched trade used by the C1 / C10 witnesses. -/
def tradeW : Trade :=
  { id := 1, proposer_id := 10, acceptor_id := some 20, status := "matched",
    proposer_item_title := "bike", proposer_item_description := "red bike",
    proposer_item_condition := none, proposer_item_value_usd := 100,
    proposer_item_category := none, acceptor_item_title := none,
    acceptor_item_description := none, acceptor_item_condition := none,
    acceptor_item_value_usd := none, acceptor_xch_offer := some 5000000000000,
    trade_type := some "item_for_xch", updated_at := 1 }

/-- Create parameters used by the C1 / C10 witnesses. -/
def txcW : TradeTransactionForCreate :=
  { trade_id := 1, tx_type := "commitment_fee", tx_id := none, from_address := none,
    to_address := some "xch1dest", amount_mojos := 2000 }

/-- Pending transaction of the C1 witness store. -/
def txPendW : TradeTransaction :=
  { id := 1, trade_id := 1, user_id := 10, tx_type := "commitment_fee",
    tx_id := none, coin_id := none, from_address := none,
    to_address := some "xch1dest", amount_mojos := 2000, status := "pending",
    confirmations := none, error_message := none, created_at := 0,
    mempool_at := none, confirmed_at := none }

/-- C1 witness store with an existing Pending commitment-fee row. -/
def dbC1 : Db :=
  { trades := [tradeW], trade_transactions := [txPendW], trade_reviews := [],
    users := [], next_tx_rowid := 2, next_review_rowid := 1 }

/-- C1 witness store with no existing ledger row. -/
def dbC1empty : Db :=
  { trades := [tradeW], trade_transactions := [], trade_reviews := [],
    users := [], next_tx_rowid := 1, next_review_rowid := 1 }

/-- The C1 witness store after a successful create on the empty ledger. -/
def dbC1after : Db :=
  { dbC1empty with
    trade_transactions := [{ txPendW with created_at := 5 }], next_tx_rowid := 2 }

/-- Witness for C1: with a Pending commitment-fee row already present, a
second create for the same (trade, user, type) fails InvalidState; and a
create succeeding on the empty ledger yields a store still satisfying the
at-most-one-non-terminal invariant. -/
theorem create_single_active_witness :
    (∃ msg, TransactionBmc.create 10 dbC1 txcW 5 = .error (.InvalidState msg)) ∧
    atMostOneActive dbC1after := by
  constructor
  · exact create_single_active_guarantee.1 10 dbC1 txcW 5 txPendW
      (by decide) (by decide) (by decide) (by decide) (by decide) (by decide)
  · exact create_single_active_guarantee.2 10 dbC1empty txcW 5 1 dbC1after
      (by decide) (by decide)

/-! ### Claim C10 -/

theorem submit_ok_shape (user_id : Int) (db : Db) (transaction_id : Int)
    (tx_id : String) (now : Nat) (db2 : Db)
    (h : TransactionBmc.submit_tx_id user_id db transaction_id tx_id now = .ok db2) :
    db2 = { db with trade_transactions :=
      db.trade_transactions.map (submitRow transaction_id user_id tx_id now) } := by
  unfold TransactionBmc.submit_tx_id at h
  by_cases hz : db.trade_transactions.countP (submitWhere transaction_id user_id) = 0
  · rw [if_pos hz] at h
    exact absurd h (by simp)
  · rw [if_neg hz] at h
    exact (Except.ok.inj h).symm

theorem submitRow_of_not_pending (transaction_id user_id : Int) (tx_id : String)
    (now : Nat) (r : TradeTransaction) (h : r.status ≠ "pending") :
    submitRow transaction_id user_id tx_id now r = r := by
  unfold submitRow
  rw [if_neg]
  simp only [submitWhere, decide_eq_true_eq, not_and]
  exact fun _ _ hc => absurd hc h

/-- Claim C10: the duplicate guard in `TransactionBmc::create` is strictly
wider than the non-terminal {Pending, Mempool} set — it rejects with
InvalidState whenever any prior transaction of the same (trade, user, type)
has a status other than `failed` or `refunded`, in particular `confirmed`;
and since every ledger operation preserves a Confirmed row unchanged, once a
transaction of a given type is confirmed, a create of that type for that
trade and user keeps failing forever. -/
theorem create_guard_wider_than_nonterminal :
    (∀ user_id db tx now r,
      (∃ t ∈ db.trades, t.id = tx.trade_id ∧
        (t.proposer_id = user_id ∨ t.acceptor_id = some user_id)) →
      r ∈ db.trade_transactions → r.trade_id = tx.trade_id → r.user_id = user_id →
      r.tx_type = tx.tx_type → r.status ≠ "failed" → r.status ≠ "refunded" →
      ∃ msg, TransactionBmc.create user_id db tx now = .error (.InvalidState msg)) ∧
    (∀ db r, r ∈ db.trade_transactions → r.status = "confirmed" →
      (∀ user_id tx now id db2,
        TransactionBmc.create user_id db tx now = .ok (id, db2) →
        r ∈ db2.trade_transactions) ∧
      (∀ user_id transaction_id tx_id now db2,
        TransactionBmc.submit_tx_id user_id db transaction_id tx_id now = .ok db2 →
        r ∈ db2.trade_transactions) ∧
      (∀ tx_id coin_id confs now db2,
        TransactionBmc.confirm db tx_id coin_id confs now = .ok db2 →
        r ∈ db2.trade_transactions) ∧
      (∀ tx_id msg db2,
        TransactionBmc.fail db tx_id msg = .ok db2 → r ∈ db2.trade_transactions) ∧
      (∀ now db2,
        cleanup_stale_transactions db now = .ok db2 →
        r ∈ db2.trade_transactions)) := by
  constructor
  · exact fun user_id db tx now r hpart hr h1 h2 h3 h4 h5 =>
      create_invalid_state user_id db tx now hpart r hr h1 h2 h3 h4 h5
  · intro db r hr hconf
    have hnotpm : ¬(r.status = "pending" ∨ r.status = "mempool") := by
      simp [hconf]
    refine ⟨?_, ?_, ?_, ?_, ?_⟩
    · intro user_id tx now id db2 h
      obtain ⟨_, htxs⟩ := create_ok_inv user_id db tx now id db2 h
      rw [htxs]
      exact List.mem_append_left _ hr
    · intro user_id transaction_id tx_id now db2 h
      rw [submit_ok_shape user_id db transaction_id tx_id now db2 h]
      show r ∈ db.trade_transactions.map (submitRow transaction_id user_id tx_id now)
      rw [← submitRow_of_not_pending transaction_id user_id tx_id now r
        (by simp [hconf])]
      exact List.mem_map_of_mem _ hr
    · intro tx_id coin_id confs now db2 h
      rw [confirm_ok_shape db tx_id coin_id confs now db2 h]
      show r ∈ db.trade_transactions.map (confirmRow tx_id coin_id confs now)
      rw [← confirmRow_not_active tx_id coin_id confs now r (fun hc => hnotpm hc.2)]
      exact List.mem_map_of_mem _ hr
    · intro tx_id msg db2 h
      rw [(Except.ok.inj h).symm]
      show r ∈ db.trade_transactions.map (failRow tx_id msg)
      rw [← failRow_not_active tx_id msg r (fun hc => hnotpm hc.2)]
      exact List.mem_map_of_mem _ hr
    · intro now db2 h
      unfold cleanup_stale_transactions at h
      rw [foldlM_fail_eq_ok, foldl_failApply_eq_map] at h
      rw [(Except.ok.inj h).symm]
      show r ∈ db.trade_transactions.map _
      rw [← foldl_failRow_fixed ((db.trade_transactions.filter
        (isStalePending now)).filterMap (fun r => r.tx_id)) r hnotpm]
      exact List.mem_map_of_mem _ hr

/-- Confirmed transaction of the C10 witness store. -/
def txConfW : TradeTransaction :=
  { txPendW with
    id := 3, tx_id := some "done", coin_id := some "", status := "confirmed",
    confirmations := some 6, mempool_at := some 10, confirmed_at := some 50 }

/-- C10 witness store: the commitment fee of user 10 is already Confirmed. -/
def dbC10 : Db :=
  { trades := [tradeW], trade_transactions := [txConfW], trade_reviews := [],
    users := [], next_tx_rowid := 4, next_review_rowid := 1 }

/-- Witness for C10: with a Confirmed commitment-fee row present, a new create
of the same type fails InvalidState, and a `fail` call leaves the Confirmed
row in place. -/
theorem create_guard_wider_witness :
    (∃ msg, TransactionBmc.create 10 dbC10 txcW 5 = .error (.InvalidState msg)) ∧
    txConfW ∈ (failApply dbC10 "done" "boom").trade_transactions := by
  constructor
  · exact create_guard_wider_than_nonterminal.1 10 dbC10 txcW 5 txConfW
      (by decide) (by decide) (by decide) (by decide) (by decide) (by decide)
      (by decide)
  · exact (create_guard_wider_than_nonterminal.2 dbC10 txConfW (by decide)
      (by decide)).2.2.2.1 "done" "boom" (failApply dbC10 "done" "boom") rfl

/-! ### Claim C2 -/

/-- Claim C2: a verification tick with shared current height behaves as
follows on a transaction with a known external id: if the chain still reports
it in the mempool, no state change; if it is absent from the mempool and
reported confirmed at height `ch` with `height - ch ≥ MIN_CONFIRMATIONS` (6),
`TransactionBmc::confirm` fires and the matching Mempool/Pending row becomes
Confirmed; if confirmed with fewer than 6 confirmations, the store is left
unchanged. -/
theorem verify_tick_behavior :
    (∀ chain db tx_id height now,
      chain.is_tx_in_mempool tx_id = true →
      verify_single_transaction chain db tx_id height now = .ok (false, db)) ∧
    (∀ chain db tx_id height now txr ch,
      chain.is_tx_in_mempool tx_id = false →
      chain.get_transaction tx_id = some txr → txr.confirmed = true →
      txr.confirmed_at_height = some ch → MIN_CONFIRMATIONS ≤ height - ch →
      (∃ r ∈ db.trade_transactions,
        r.tx_id = some tx_id ∧ (r.status = "pending" ∨ r.status = "mempool")) →
      verify_single_transaction chain db tx_id height now =
        .ok (true, { db with
          trade_transactions := db.trade_transactions.map
            (confirmRow tx_id "" (Int.ofNat (height - ch)) now) })) ∧
    (∀ chain db tx_id height now txr ch,
      chain.is_tx_in_mempool tx_id = false →
      chain.get_transaction tx_id = some txr → txr.confirmed = true →
      txr.confirmed_at_height = some ch → height - ch < MIN_CONFIRMATIONS →
      verify_single_transaction chain db tx_id height now = .ok (false, db)) := by
  refine ⟨?_, ?_, ?_⟩
  · intro chain db tx_id height now h1
    unfold verify_single_transaction
    rw [if_pos h1]
  · intro chain db tx_id height now txr ch h1 h2 h3 h4 h5 h6
    unfold verify_single_transaction
    rw [if_neg (by simp [h1])]
    simp only [h2, h3, h4, if_true]
    rw [if_pos h5, confirm_eq_ok db tx_id "" (Int.ofNat (height - ch)) now h6]
  · intro chain db tx_id height now txr ch h1 h2 h3 h4 h5
    unfold verify_single_transaction
    rw [if_neg (by simp [h1])]
    simp only [h2, h3, h4, if_true]
    rw [if_neg (Nat.not_le_of_lt h5)]

/-- Chain observer of Scenarios B and C: the tx is no longer in the mempool
and `get_transaction "abc"` reports confirmed at height 100. -/
def chainBC : ChainObserver :=
  { is_tx_in_mempool := fun _ => false,
    get_transaction := fun s =>
      if s = "abc" then some { confirmed := true, confirmed_at_height := some 100 }
      else none }

/-- Chain observer with the tx still in the mempool. -/
def chainStillMempool : ChainObserver :=
  { is_tx_in_mempool := fun _ => true, get_transaction := fun _ => none }

/-- Mempool-status ledger entry of Scenarios B and C: amount 2000 mojos,
external id "abc" (as produced by create followed by submit_tx_id). -/
def txScenB : TradeTransaction :=
  { id := 1, trade_id := 1, user_id := 10, tx_type := "commitment_fee",
    tx_id := some "abc", coin_id := none, from_address := none,
    to_address := some "xch1dest", amount_mojos := 2000, status := "mempool",
    confirmations := none, error_message := none, created_at := 0,
    mempool_at := some 10, confirmed_at := none }

/-- Store of Scenarios B and C. -/
def dbScenB : Db :=
  { trades := [tradeW], trade_transactions := [txScenB], trade_reviews := [],
    users := [], next_tx_rowid := 2, next_review_rowid := 1 }

/-- Store after Scenario B's verification tick: the entry is Confirmed with
6 confirmations. -/
def dbScenBafter : Db :=
  { dbScenB with trade_transactions :=
    [{ txScenB with
       status := "confirmed", coin_id := some "", confirmations := some 6,
       confirmed_at := some 60 }] }

/-- Witness for C2: Scenario B (height 106, confirmed at 100 → Confirmed),
Scenario C (height 104 → unchanged, still Mempool), and a tick while the tx
is still in the mempool (unchanged). -/
theorem verify_tick_witness :
    verify_single_transaction chainBC dbScenB "abc" 106 60 = .ok (true, dbScenBafter) ∧
    verify_single_transaction chainBC dbScenB "abc" 104 60 = .ok (false, dbScenB) ∧
    verify_single_transaction chainStillMempool dbScenB "abc" 106 60 =
      .ok (false, dbScenB) := by
  refine ⟨?_, ?_, ?_⟩
  · exact (verify_tick_behavior.2.1 chainBC dbScenB "abc" 106 60
      { confirmed := true, confirmed_at_height := some 100 } 100
      rfl rfl rfl rfl (by decide) (by decide)).trans
      (congrArg (fun d => Except.ok (true, d)) (by decide))
  · exact verify_tick_behavior.2.2 chainBC dbScenB "abc" 104 60
      { confirmed := true, confirmed_at_height := some 100 } 100
      rfl rfl rfl rfl (by decide)
  · exact verify_tick_behavior.1 chainStillMempool dbScenB "abc" 106 60 rfl

/-! ### Claim C5 -/

theorem accept_notfound (user_id : Int) (db : Db) (params : TradeAcceptParams)
    (now : Nat)
    (h : ∀ t ∈ db.trades, ¬(t.id = params.trade_id ∧ t.status = "proposal")) :
    TradeBmc.accept user_id db params now = .error .NotFound := by
  unfold TradeBmc.accept
  have hz : db.trades.find? (proposalRow params.trade_id) = none := by
    refine List.find?_eq_none.mpr (fun t ht => ?_)
    simpa [proposalRow] using h t ht
  rw [hz]

theorem acceptRow_of_ne (user_id : Int) (params : TradeAcceptParams)
    (trade_type : String) (now : Nat) (t : Trade) (h : ¬t.id = params.trade_id) :
    acceptRow user_id params trade_type now t = t := by
  unfold acceptRow
  rw [if_neg h]

theorem acceptRow_status (user_id : Int) (params : TradeAcceptParams)
    (trade_type : String) (now : Nat) (t : Trade) (h : t.id = params.trade_id) :
    (acceptRow user_id params trade_type now t).status = "matched" := by
  unfold acceptRow
  rw [if_pos h]

theorem accept_ok_no_proposal_left (user_id : Int) (db : Db)
    (params : TradeAcceptParams) (now : Nat) (db2 : Db)
    (h : TradeBmc.accept user_id db params now = .ok db2) :
    ∀ t2 ∈ db2.trades, ¬(t2.id = params.trade_id ∧ t2.status = "proposal") := by
  unfold TradeBmc.accept at h
  split at h
  · exact absurd h (by simp)
  · split at h
    · exact absurd h (by simp)
    · have hdb2 := (Except.ok.inj h).symm
      rw [hdb2]
      intro t2 ht2 hbad
      obtain ⟨t, ht, hmap⟩ := List.mem_map.mp ht2
      by_cases hid : t.id = params.trade_id
      · have hst : t2.status = "matched" := by
          rw [← hmap]
          exact acceptRow_status user_id params _ now t hid
        rw [hst] at hbad
        exact absurd hbad.2 (by simp)
      · rw [acceptRow_of_ne user_id params _ now t hid] at hmap
        rw [← hmap] at hbad
        exact hid hbad.1

/-- Claim C5: `TradeBmc::accept` rejects a proposer accepting their own
proposal with BadRequest, fails NotFound when the trade is absent or not in
Proposal status, and consequently a second accept of the same trade — which
is in Matched status after the first — fails NotFound, so `acceptor_id` once
set is never overwritten by accept. -/
theorem accept_guards_and_acceptor_immutable :
    (∀ user_id db params now t, uniqueTradeIds db → t ∈ db.trades →
      t.id = params.trade_id → t.status = "proposal" → t.proposer_id = user_id →
      TradeBmc.accept user_id db params now = .error .BadRequest) ∧
    (∀ user_id db params now,
      (∀ t ∈ db.trades, ¬(t.id = params.trade_id ∧ t.status = "proposal")) →
      TradeBmc.accept user_id db params now = .error .NotFound) ∧
    (∀ user_id db params now db2 user_id2 params2 now2,
      TradeBmc.accept user_id db params now = .ok db2 →
      params2.trade_id = params.trade_id →
      TradeBmc.accept user_id2 db2 params2 now2 = .error .NotFound) := by
  refine ⟨?_, accept_notfound, ?_⟩
  · intro user_id db params now t hu ht hid hst hself
    unfold TradeBmc.accept
    cases hf : db.trades.find? (proposalRow params.trade_id) with
    | none =>
      exfalso
      exact absurd (by simp [proposalRow, hid, hst])
        (List.find?_eq_none.mp hf t ht)
    | some t0 =>
      have hp := List.find?_some hf
      simp only [proposalRow, decide_eq_true_eq] at hp
      have ht0 : t0 = t :=
        hu t0 (List.mem_of_find?_eq_some hf) t ht (by rw [hp.1, hid])
      simp [ht0, hself]
  · intro user_id db params now db2 user_id2 params2 now2 hok hsame
    refine accept_notfound user_id2 db2 params2 now2 (fun t2 ht2 hbad => ?_)
    exact accept_ok_no_proposal_left user_id db params now db2 hok t2 ht2
      (by rw [← hsame]; exact hbad)

/-- Proposal trade used by the C5 witness. -/
def tradeProp : Trade :=
  { id := 1, proposer_id := 10, acceptor_id := none, status := "proposal",
    proposer_item_title := "bike", proposer_item_description := "red bike",
    proposer_item_condition := none, proposer_item_value_usd := 100,
    proposer_item_category := none, acceptor_item_title := none,
    acceptor_item_description := none, acceptor_item_condition := none,
    acceptor_item_value_usd := none, acceptor_xch_offer := none,
    trade_type := some "item_for_item", updated_at := 0 }

/-- Store of the C5 witness: a single open proposal by user 10. -/
def dbC5 : Db :=
  { trades := [tradeProp], trade_transactions := [], trade_reviews := [],
    users := [], next_tx_rowid := 1, next_review_rowid := 1 }

/-- Accept parameters of the C5 witness: user offers 5 XCH (in mojos). -/
def acceptP : TradeAcceptParams :=
  { trade_id := 1, offer_type := "xch", item_title := none,
    item_description := none, item_condition := none, item_value_usd := none,
    xch_amount := some 5000000000000 }

/-- Store after user 20 accepts the C5 proposal. -/
def dbC5matched : Db :=
  { dbC5 with trades := [{ tradeProp with
      acceptor_id := some 20, status := "matched", acceptor_xch_offer :=
        some 5000000000000, trade_type := some "item_for_xch",
      updated_at := 7 }] }

/-- Witness for C5: the proposer's self-accept fails BadRequest, an accept of
a missing id fails NotFound, and after user 20's successful accept a second
accept of the same trade fails NotFound (leaving `acceptor_id` at 20). -/
theorem accept_guards_witness :
    TradeBmc.accept 10 dbC5 acceptP 7 = .error .BadRequest ∧
    TradeBmc.accept 20 dbC5 { acceptP with trade_id := 2 } 7 = .error .NotFound ∧
    TradeBmc.accept 30 dbC5matched acceptP 9 = .error .NotFound := by
  refine ⟨?_, ?_, ?_⟩
  · exact accept_guards_and_acceptor_immutable.1 10 dbC5 acceptP 7 tradeProp
      (by decide) (by decide) (by decide) (by decide) (by decide)
  · exact accept_guards_and_acceptor_immutable.2.1 20 dbC5
      { acceptP with trade_id := 2 } 7 (by decide)
  · exact accept_guards_and_acceptor_immutable.2.2 20 dbC5 acceptP 7
      dbC5matched 30 acceptP 9 (by decide) rfl

/-! ### Claim C4 -/

/-- Store of the C4 failing input: a single trade still in Proposal status. -/
def dbC4 : Db :=
  { trades := [tradeProp], trade_transactions := [], trade_reviews := [],
    users := [], next_tx_rowid := 1, next_review_rowid := 1 }

/-- Claim C4 failing input: `rpc_trade_commit` called by the proposer on a
trade in Proposal status succeeds and sets the status to `committed`,
because `TradeBmc::update_status` constrains only the id and participation,
not the current status — contradicting the state machine's
Matched/Committed-only commit guard. -/
theorem trade_commit_succeeds_on_proposal :
    rpc_trade_commit 10 dbC4 1 7 =
      .ok { dbC4 with
        trades := [{ tradeProp with status := "committed", updated_at := 7 }] } := by
  decide

/-! ### Claim C7 -/

/-- Completed trade used by the C7 counterexample. -/
def tradeDone : Trade :=
  { id := 1, proposer_id := 10, acceptor_id := some 20, status := "completed",
    proposer_item_title := "bike", proposer_item_description := "red bike",
    proposer_item_condition := none, proposer_item_value_usd := 100,
    proposer_item_category := none, acceptor_item_title := none,
    acceptor_item_description := none, acceptor_item_condition := none,
    acceptor_item_value_usd := none, acceptor_xch_offer := some 5000000000000,
    trade_type := some "item_for_xch", updated_at := 9 }

/-- Store of the C7 counterexample. -/
def dbC7 : Db :=
  { trades := [tradeDone], trade_transactions := [], trade_reviews := [],
    users := [], next_tx_rowid := 1, next_review_rowid := 1 }

/-- Counterexample to C7 as stated: `TradeBmc::get_public` returns a trade in
Completed (non-Proposal) status to an arbitrary reader — its query has no
status filter. -/
theorem get_public_exposes_completed_trade :
    TradeBmc.get_public dbC7 1 = .ok tradeDone ∧ tradeDone.status = "completed" := by
  decide

/-- Claim C7 (amended): `get_public` returns the trade to any reader exactly
when a trade with the given id exists, regardless of its status; it fails
NotFound only when the id is absent. -/
theorem get_public_returns_any_existing :
    (∀ db id, (∃ t ∈ db.trades, t.id = id) →
      ∃ t, TradeBmc.get_public db id = .ok t ∧ t ∈ db.trades ∧ t.id = id) ∧
    (∀ db id, (∀ t ∈ db.trades, t.id ≠ id) →
      TradeBmc.get_public db id = .error .NotFound) := by
  constructor
  · intro db id hex
    unfold TradeBmc.get_public
    cases hf : db.trades.find? (fun t => decide (t.id = id)) with
    | none =>
      exfalso
      obtain ⟨t, ht, hid⟩ := hex
      exact absurd (by simp [hid]) (List.find?_eq_none.mp hf t ht)
    | some t0 =>
      refine ⟨t0, rfl, List.mem_of_find?_eq_some hf, ?_⟩
      simpa using List.find?_some hf
  · intro db id hnone
    unfold TradeBmc.get_public
    have hz : db.trades.find? (fun t => decide (t.id = id)) = none :=
      List.find?_eq_none.mpr (fun t ht => by simpa using hnone t ht)
    rw [hz]

/-- Witness for the amended C7: the Completed trade is returned for its id,
and a missing id yields NotFound. -/
theorem get_public_witness :
    (∃ t, TradeBmc.get_public dbC7 1 = .ok t ∧ t ∈ dbC7.trades ∧ t.id = 1) ∧
    TradeBmc.get_public dbC7 2 = .error .NotFound :=
  ⟨get_public_returns_any_existing.1 dbC7 1 (by decide),
   get_public_returns_any_existing.2 dbC7 2 (by decide)⟩

/-! ### Claim C9 -/

/-- Completed trade reviewed in the C9 failing input. -/
def tradeC9 : Trade :=
  { tradeDone with id := 4 }

/-- Store of the C9 failing input: a completed trade between users 10 and 20. -/
def dbC9 : Db :=
  { trades := [tradeC9], trade_transactions := [], trade_reviews := [],
    users := [{ id := 10, reputation_score := 0, total_trades := 0, updated_at := 0 },
      { id := 20, reputation_score := 0, total_trades := 0, updated_at := 0 }],
    next_tx_rowid := 1, next_review_rowid := 1 }

/-- Review submitted in the C9 failing input. -/
def reviewC9 : ReviewForCreate :=
  { trade_id := 4, timeliness := 5, packaging := 4, value_honesty := 5,
    state_accuracy := 4, comment := none }

/-- Claim C9 failing input: when the reputation UPDATE statement fails after
the review INSERT has committed (the two statements run in autocommit mode,
with no enclosing SQL transaction), `ReviewBmc::create` returns an error while
the inserted review row remains in the store — the insert and the reputation
recomputation are not transactionally consistent. -/
theorem review_create_not_transactional :
    (ReviewBmc.create 10 dbC9 reviewC9 50 false).1 = .error .InternalServer ∧
    (∃ rv ∈ (ReviewBmc.create 10 dbC9 reviewC9 50 false).2.trade_reviews,
      rv.trade_id = 4 ∧ rv.reviewer_id = 10 ∧ rv.reviewee_id = 20) ∧
    (ReviewBmc.create 10 dbC9 reviewC9 50 false).2.users = dbC9.users := by
  refine ⟨?_, ?_, ?_⟩ <;> decide

end DTREX
